import Mathlib

/-!
Verification of the cal-ai nutrition-logging application core against its
natural-language specification.  The definitions below shallowly embed the
code of `src/App.tsx` (the `App` component's handlers and filters) and of
`src/unnamed/part_000` (the `Profile` component's handlers).  Code of the
repository that is not under `src/` (the `localStorageService` and
`dateUtils` modules) is modelled from the specification; each such
definition carries a doc comment starting `Modelled from the spec:`.

JavaScript numbers are embedded as `Int` (all claim-relevant arithmetic is
exact), entry timestamps as `Option Int` (the code guards on
`typeof ts === "number"`, so a non-numeric timestamp is `none`), and
fallible storage writes are driven by an explicit failure oracle.
-/

namespace CalAI

/-- `MacroGoals` from `src/types`: daily targets for the four macros
(`{ calories, protein, carbs, fat }`). -/
structure MacroGoals where
  calories : Int
  protein : Int
  carbs : Int
  fat : Int
deriving DecidableEq, Repr

/-- `FoodItem` from `src/types`: the caller-supplied food description passed
to `handleAddFood`.  `portion` is optional (the code comment in
`handleAddFood` notes the fallback "if optional in types"). -/
structure FoodItem where
  name : String
  portion : Option String
  calories : Int
  protein : Int
  carbs : Int
  fat : Int
deriving DecidableEq, Repr

/-- `LogEntry` from `src/services/localStorageService`: one recorded food
intake event.  `timestamp` is `Option Int` because the day filters in
`App.tsx` guard on `typeof ts === "number"`. -/
structure LogEntry where
  id : String
  name : String
  portion : String
  calories : Int
  protein : Int
  carbs : Int
  fat : Int
  timestamp : Option Int
deriving DecidableEq, Repr

/-- The slice of the `App` component state the handlers touch:
the durably persisted entry list for the single local user (`store`),
the optimistic `loggedFoods` React state, and the `error` banner state. -/
structure AppState where
  store : List LogEntry
  loggedFoods : List LogEntry
  error : Option String
deriving DecidableEq, Repr

/-- Modelled from the spec: `addLogEntry` of `localStorageService` (not under
`src/`) persists the entry into the user's collection; the code comment in
`handleAddFood` says the service appends to localStorage. -/
def addLogEntry (store : List LogEntry) (e : LogEntry) : List LogEntry :=
  store ++ [e]

/-- Modelled from the spec: `deleteLogEntry` of `localStorageService` (not
under `src/`) deletes the entry with matching `id` if present; removing a
non-existent id is a no-op. -/
def deleteLogEntry (store : List LogEntry) (id : String) : List LogEntry :=
  store.filter (fun e => e.id ≠ id)

/-- The portion fallback `food.portion || '1 serving'` in `handleAddFood`:
JavaScript `||` also replaces the empty string (falsy) by the default. -/
def fallbackPortion : Option String → String
  | none => "1 serving"
  | some s => if s = "" then "1 serving" else s

/-- The `LogEntry` literal built for one food inside `handleAddFood`'s loop.
`genId` stands for `Date.now().toString() + Math.random()...` and `now` for
`Date.now()`, both indexed by the loop iteration. -/
def mkEntry (genId : Nat → String) (now : Nat → Int) (i : Nat) (f : FoodItem) :
    LogEntry :=
  { id := genId i
    name := f.name
    portion := fallbackPortion f.portion
    calories := f.calories
    protein := f.protein
    carbs := f.carbs
    fat := f.fat
    timestamp := some (now i) }

/-- The `for (const food of foods) { ...; await addLogEntry(...) }` loop of
`handleAddFood`, starting at iteration `i`.  `fails i` says whether the
`i`-th storage write throws.  Returns the entries durably persisted, the
entries for which `addLogEntry` was invoked (the attempt trace), and whether
the loop aborted with a thrown `PersistenceError`.  A throw aborts the loop:
later foods are never attempted. -/
def runBatch (fails : Nat → Bool) (genId : Nat → String) (now : Nat → Int) :
    Nat → List FoodItem → List LogEntry × List LogEntry × Bool
  | _, [] => ([], [], false)
  | i, f :: fs =>
    let e := mkEntry genId now i f
    if fails i then ([], [e], true)
    else
      let r := runBatch fails genId now (i + 1) fs
      (e :: r.1, e :: r.2.1, r.2.2)

/-- The entries `handleAddFood`'s loop builds for a food list when every
storage write succeeds: index-wise `mkEntry`, starting at iteration `i`. -/
def mkEntries (genId : Nat → String) (now : Nat → Int) :
    Nat → List FoodItem → List LogEntry
  | _, [] => []
  | i, f :: fs => mkEntry genId now i f :: mkEntries genId now (i + 1) fs

/-- The error message set by `handleAddFood`'s catch block. -/
def addFoodErrorMsg : String := "Failed to add some items. Check storage and retry."

/-- The error message set by `handleRemoveFood`'s catch block. -/
def removeFoodErrorMsg : String := "Failed to remove food log."

/-- `handleAddFood` of `src/App.tsx` (lines 110-138).  `foods = none` models a
missing (`null`/`undefined`) argument, guarded by `!foods`.  On the empty
guard nothing happens; otherwise the batch loop runs; a thrown write is
caught and sets the error banner without rethrowing; only on full-batch
success is the optimistic `setLoggedFoods` update applied.  The second
component is the `addLogEntry` attempt trace. -/
def handleAddFood (fails : Nat → Bool) (genId : Nat → String) (now : Nat → Int)
    (s : AppState) (foods : Option (List FoodItem)) : AppState × List LogEntry :=
  match foods with
  | none => (s, [])
  | some fs =>
    if fs.length = 0 then (s, [])
    else if (runBatch fails genId now 0 fs).2.2 then
      ({ s with store := s.store ++ (runBatch fails genId now 0 fs).1,
                error := some addFoodErrorMsg },
       (runBatch fails genId now 0 fs).2.1)
    else
      ({ s with store := s.store ++ (runBatch fails genId now 0 fs).1,
                loggedFoods := s.loggedFoods ++ (runBatch fails genId now 0 fs).1 },
       (runBatch fails genId now 0 fs).2.1)

/-- `handleRemoveFood` of `src/App.tsx` (lines 140-147).  `fails` says whether
the single `deleteLogEntry` write throws; a throw is caught and sets the
error banner.  The second component counts `deleteLogEntry` invocations. -/
def handleRemoveFood (fails : Bool) (s : AppState) (id : String) :
    AppState × Nat :=
  if fails then ({ s with error := some removeFoodErrorMsg }, 1)
  else ({ s with store := deleteLogEntry s.store id }, 1)

/-- The dismiss button of the error banner in `src/App.tsx` (line 169):
`onClick` runs `setError(null)`. -/
def dismissError (s : AppState) : AppState := { s with error := none }

/-- The error banner in `src/App.tsx` (lines 166-173) renders exactly when
`error` is non-null. -/
def errorNoticeVisible (s : AppState) : Bool := s.error.isSome

/-- The initial `goals` React state of `src/App.tsx` line 33. -/
def initialGoals : MacroGoals :=
  { calories := 2000, protein := 150, carbs := 250, fat := 65 }

/-- Modelled from the spec: the `MacroGoals` defaults named in the data
model, `{2000, 150, 250, 65}`. -/
def specDefaultGoals : MacroGoals :=
  { calories := 2000, protein := 150, carbs := 250, fat := 65 }

/-- The four goal keys (`keyof MacroGoals`). -/
inductive GoalKey
  | calories
  | protein
  | carbs
  | fat
deriving DecidableEq, Repr

/-- Field projection of `MacroGoals` by key. -/
def getGoal (g : MacroGoals) : GoalKey → Int
  | .calories => g.calories
  | .protein => g.protein
  | .carbs => g.carbs
  | .fat => g.fat

/-- `handleGoalChange` of `src/unnamed/part_000` (lines 21-24):
`{ ...goals, [key]: value }`. -/
def handleGoalChange (g : MacroGoals) (key : GoalKey) (value : Int) : MacroGoals :=
  match key with
  | .calories => { g with calories := value }
  | .protein => { g with protein := value }
  | .carbs => { g with carbs := value }
  | .fat => { g with fat := value }

/-- Milliseconds per calendar day. -/
def msPerDay : Int := 86400000

/-- Modelled from the spec: `isSameDay` of `src/utils/dateUtils` (not under
`src/`) — two instants fall on the same calendar day "in the local time zone
semantics chosen by the caller".  The caller's zone is the fixed offset
`off` in milliseconds; a calendar day is identified by its floor-division
index since the epoch in that zone, which determines the civil date
uniquely. -/
def isSameDay (off t1 t2 : Int) : Bool :=
  (t1 + off).fdiv msPerDay = (t2 + off).fdiv msPerDay

/-- The `loggedFoods.filter(...)` day filter of `src/App.tsx`
(lines 196-199 and 215-223): keep the item when its `timestamp` is not a
number, otherwise when `isSameDay(new Date(ts), selectedDate)`. -/
def dayFilter (off : Int) (selectedDate : Int) (foods : List LogEntry) :
    List LogEntry :=
  foods.filter fun item =>
    match item.timestamp with
    | some ts => isSameDay off ts selectedDate
    | none => true

/-- First-match association-list lookup (JavaScript object field read). -/
def lookupA {α : Type} : List (String × α) → String → Option α
  | [], _ => none
  | (k', v) :: rest, k => if k' = k then some v else lookupA rest k

/-- Association-list field write: overwrite the existing binding in place, or
append a fresh one (JavaScript object field assignment / spread override). -/
def setA {α : Type} : List (String × α) → String → α → List (String × α)
  | [], k, v => [(k, v)]
  | (k', v') :: rest, k, v =>
    if k' = k then (k, v) :: rest else (k', v') :: setA rest k v

/-- One value of an extensible profile attribute. -/
inductive AttrVal
  | goalsVal (g : MacroGoals)
  | strVal (s : String)
  | numVal (n : Int)
deriving DecidableEq, Repr

/-- A profile's extensible attribute set: field name to value. -/
abbrev Attrs := List (String × AttrVal)

/-- Field-level merge of a patch into a profile record: every field of the
patch overwrites or extends; all other fields are kept. -/
def mergeAttrs (p patch : Attrs) : Attrs :=
  patch.foldl (fun acc kv => setA acc kv.1 kv.2) p

/-- The profile defaults used when a profile is created lazily on first
write. -/
def defaultAttrs : Attrs := [("macroGoals", AttrVal.goalsVal specDefaultGoals)]

/-- The durable profile collection: one record per `userId`. -/
abbrev ProfileStore := List (String × Attrs)

/-- The existing profile record of `u`, or the defaults if absent. -/
def profileAttrs (ps : ProfileStore) (u : String) : Attrs :=
  (lookupA ps u).getD defaultAttrs

/-- Modelled from the spec: `updateUserProfile` of `localStorageService` (not
under `src/`) — merges the partial attribute set into the existing profile,
creating one with defaults if absent; field-level merge, never full-record
overwrite. -/
def updateUserProfile (ps : ProfileStore) (u : String) (patch : Attrs) :
    ProfileStore :=
  setA ps u (mergeAttrs (profileAttrs ps u) patch)

/-- The whole persisted state: the profile collection and the per-user entry
lists (the two durable collections of the spec's persisted state layout). -/
structure Storage where
  profiles : ProfileStore
  entries : List (String × List LogEntry)
deriving DecidableEq, Repr

/-- Modelled from the spec: `getUserProfile` of `localStorageService` (not
under `src/`) — returns the profile or the first-class not-found sentinel
(`none`). -/
def getUserProfile (s : Storage) (u : String) : Option Attrs :=
  lookupA s.profiles u

/-- `handleClearData` of `src/unnamed/part_000` (lines 26-31): only when the
`confirm(...)` dialog is accepted does `localStorage.clear()` run, erasing
every persisted collection for every user. -/
def handleClearData (confirmed : Bool) (s : Storage) : Storage :=
  if confirmed then { profiles := [], entries := [] } else s

/-- The notification bus state, modelled from the spec: the subscriber
registry (token and userId per active subscription) and the log of callback
invocations (token and the snapshot it received), in delivery order. -/
structure Bus where
  nextToken : Nat
  subs : List (Nat × String)
  emissions : List (Nat × List LogEntry)
deriving DecidableEq, Repr

/-- Modelled from the spec: `subscribeToLogEntries` of `localStorageService`
(not under `src/`) — registers the callback and immediately pushes the
current persisted snapshot (`store u`, possibly empty) to it; returns the
handle identifying the registration. -/
def subscribeToLogEntries (store : String → List LogEntry) (b : Bus)
    (u : String) : Bus × Nat :=
  ({ nextToken := b.nextToken + 1
     subs := b.subs ++ [(b.nextToken, u)]
     emissions := b.emissions ++ [(b.nextToken, store u)] }, b.nextToken)

/-- Modelled from the spec: the unsubscribe handle — removes the registration
with the given token; removing an absent token is a no-op, so invoking the
handle is idempotent. -/
def unsubscribe (b : Bus) (t : Nat) : Bus :=
  { b with subs := b.subs.filter (fun p => p.1 ≠ t) }

/-- Concrete food fixture. -/
def appleFI : FoodItem :=
  { name := "apple", portion := some "1 medium", calories := 95, protein := 0,
    carbs := 25, fat := 0 }

/-- Concrete food fixture. -/
def bananaFI : FoodItem :=
  { name := "banana", portion := some "1 large", calories := 121, protein := 1,
    carbs := 31, fat := 0 }

/-- Concrete food fixture. -/
def carrotFI : FoodItem :=
  { name := "carrot", portion := some "1 cup", calories := 52, protein := 1,
    carbs := 12, fat := 0 }

/-- Concrete food fixture with an empty (falsy) portion string. -/
def teaFI : FoodItem :=
  { name := "tea", portion := some "", calories := 2, protein := 0,
    carbs := 0, fat := 0 }

/-- The empty application state. -/
def s0 : AppState := { store := [], loggedFoods := [], error := none }

/-- A concrete id generator. -/
def gid0 : Nat → String := fun i => Nat.repr i

/-- A concrete clock. -/
def now0 : Nat → Int := fun _ => 1717286340000

/-- Epoch milliseconds of 2024-06-01T00:00 at zone offset 0. -/
def june1Midnight : Int := 1717200000000

/-- Epoch milliseconds of 2024-06-02T00:00 at zone offset 0. -/
def june2Midnight : Int := 1717286400000

/-- Epoch milliseconds of 2024-06-01T23:59 at zone offset 0. -/
def lateEntryTs : Int := 1717286340000

/-- A log entry timestamped 2024-06-01T23:59 at zone offset 0. -/
def lateEntry : LogEntry :=
  { id := "e1", name := "snack", portion := "1 serving", calories := 100,
    protein := 1, carbs := 2, fat := 3, timestamp := some lateEntryTs }

/-! ## Helper lemmas -/

/-- Reading back the field just written. -/
theorem lookupA_setA_eq {α : Type} (l : List (String × α)) (k : String) (v : α) :
    lookupA (setA l k v) k = some v := by
  induction l with
  | nil => simp [setA, lookupA]
  | cons hd tl ih =>
    obtain ⟨k', v'⟩ := hd
    by_cases h : k' = k
    · simp [setA, h, lookupA]
    · simp [setA, h, lookupA, ih]

/-- Writing one field leaves every other field's value unchanged. -/
theorem lookupA_setA_ne {α : Type} (l : List (String × α)) (k' k : String)
    (v : α) (h : k' ≠ k) : lookupA (setA l k' v) k = lookupA l k := by
  induction l with
  | nil => simp [setA, lookupA, h]
  | cons hd tl ih =>
    obtain ⟨k'', v''⟩ := hd
    by_cases h' : k'' = k'
    · simp [setA, h', lookupA, h]
    · simp only [setA, h', if_false, lookupA]
      by_cases h'' : k'' = k
      · simp [h'']
      · simp [h'', ih]

/-- Merging a patch that does not mention field `k` leaves `k` unchanged. -/
theorem lookupA_mergeAttrs (p q : Attrs) (k : String)
    (h : lookupA q k = none) : lookupA (mergeAttrs p q) k = lookupA p k := by
  induction q generalizing p with
  | nil => rfl
  | cons hd tl ih =>
    obtain ⟨k', v'⟩ := hd
    by_cases h' : k' = k
    · simp [lookupA, h'] at h
    · simp only [lookupA, h', if_false] at h
      show lookupA (mergeAttrs (setA p k' v') tl) k = lookupA p k
      rw [ih (setA p k' v') h, lookupA_setA_ne p k' k v' h']

/-- The profile record visible after an update is the merge of the previous
(or default) record with the patch. -/
theorem profileAttrs_update (ps : ProfileStore) (u : String) (patch : Attrs) :
    profileAttrs (updateUserProfile ps u patch) u
      = mergeAttrs (profileAttrs ps u) patch := by
  unfold profileAttrs updateUserProfile
  rw [lookupA_setA_eq]
  rfl

/-- `runBatch` never attempts more writes than there are foods. -/
theorem runBatch_attempts_le (fails : Nat → Bool) (genId : Nat → String)
    (now : Nat → Int) (i : Nat) (fs : List FoodItem) :
    (runBatch fails genId now i fs).2.1.length ≤ fs.length := by
  induction fs generalizing i with
  | nil => simp [runBatch]
  | cons f tl ih =>
    by_cases h : fails i
    · simp [runBatch, h]
    · simp only [runBatch, h, if_false, List.length_cons]
      exact Nat.succ_le_succ (ih (i + 1))

/-- With no storage failure, the batch loop persists and attempts exactly the
index-wise entries and does not abort. -/
theorem runBatch_noFail (genId : Nat → String) (now : Nat → Int) (i : Nat)
    (fs : List FoodItem) :
    runBatch (fun _ => false) genId now i fs
      = (mkEntries genId now i fs, mkEntries genId now i fs, false) := by
  induction fs generalizing i with
  | nil => rfl
  | cons f tl ih => simp [runBatch, mkEntries, ih]

/-- Filtering twice with the same predicate is the same as filtering once. -/
theorem filter_self_idem {α : Type} (p : α → Bool) (l : List α) :
    (l.filter p).filter p = l.filter p := by
  induction l with
  | nil => rfl
  | cons a tl ih => by_cases h : p a <;> simp [List.filter_cons, h, ih]

/-- When the batch loop aborts with a thrown write, `handleAddFood` catches it
and lands in the error branch: prior successes stay appended to the store,
the banner message is set, and the optimistic list is untouched. -/
theorem handleAddFood_failed (fails : Nat → Bool) (genId : Nat → String)
    (now : Nat → Int) (s : AppState) (fs : List FoodItem)
    (h : (runBatch fails genId now 0 fs).2.2 = true) :
    handleAddFood fails genId now s (some fs)
      = ({ s with store := s.store ++ (runBatch fails genId now 0 fs).1,
                  error := some addFoodErrorMsg },
         (runBatch fails genId now 0 fs).2.1) := by
  cases fs with
  | nil => simp [runBatch] at h
  | cons f tl =>
    simp only [handleAddFood]
    rw [if_neg (by simp), if_pos h]

/-- With no storage failure, `handleAddFood` appends all entries to the store
and to the optimistic list and leaves the error state alone. -/
theorem handleAddFood_noFail (genId : Nat → String) (now : Nat → Int)
    (s : AppState) (fs : List FoodItem) :
    handleAddFood (fun _ => false) genId now s (some fs)
      = (if fs.length = 0 then (s, [])
         else ({ s with store := s.store ++ mkEntries genId now 0 fs,
                        loggedFoods := s.loggedFoods ++ mkEntries genId now 0 fs },
               mkEntries genId now 0 fs)) := by
  cases fs with
  | nil => rfl
  | cons f tl =>
    simp only [handleAddFood, runBatch_noFail]
    rw [if_neg (by simp), if_neg (by simp), if_neg (by simp)]

/-- `handleAddFood` issues at most one `addLogEntry` call per supplied food:
no food is ever retried. -/
theorem handleAddFood_attempts_le (fails : Nat → Bool) (genId : Nat → String)
    (now : Nat → Int) (s : AppState) (fs : List FoodItem) :
    (handleAddFood fails genId now s (some fs)).2.length ≤ fs.length := by
  cases fs with
  | nil => simp [handleAddFood]
  | cons f tl =>
    simp only [handleAddFood]
    rw [if_neg (by simp)]
    by_cases h : (runBatch fails genId now 0 (f :: tl)).2.2
    · rw [if_pos h]
      exact runBatch_attempts_le fails genId now 0 (f :: tl)
    · rw [if_neg h]
      exact runBatch_attempts_le fails genId now 0 (f :: tl)

/-! ## Claims -/

/-- Claim C1, as stated, is false on the code: when three foods are logged in
one `handleAddFood` batch and the second storage write throws, the single
try/catch around the whole loop aborts it, so the third item is never
persisted — the resulting store holds no entry named like the third food,
only the first food's entry, while the caller is told the batch failed. -/
theorem c1_counterexample :
    ((handleAddFood (fun i => decide (i = 1)) gid0 now0 s0
        (some [appleFI, bananaFI, carrotFI])).1.store.all
      (fun e => e.name != "carrot")) = true
    ∧ (handleAddFood (fun i => decide (i = 1)) gid0 now0 s0
        (some [appleFI, bananaFI, carrotFI])).1.store
        = [mkEntry gid0 now0 0 appleFI]
    ∧ (handleAddFood (fun i => decide (i = 1)) gid0 now0 s0
        (some [appleFI, bananaFI, carrotFI])).1.error = some addFoodErrorMsg := by
  decide

/-- Claim C1 (amended): if a caller logs three items in one batch via
`handleAddFood` and persistence of item 2 fails, then item 1 (the item
before the failing one) is durably present in the store — hence in the
snapshot the notification bus re-reads — and is not rolled back; items 2
and 3 are not persisted (item 3 is never attempted, as the attempt trace
shows); the caller is informed the batch was partial via the error banner;
and the optimistic list is left untouched. -/
theorem c1_partial_batch (genId : Nat → String) (now : Nat → Int)
    (s : AppState) (f1 f2 f3 : FoodItem) :
    (handleAddFood (fun i => decide (i = 1)) genId now s
        (some [f1, f2, f3])).1.store = s.store ++ [mkEntry genId now 0 f1]
    ∧ (handleAddFood (fun i => decide (i = 1)) genId now s
        (some [f1, f2, f3])).1.error = some addFoodErrorMsg
    ∧ (handleAddFood (fun i => decide (i = 1)) genId now s
        (some [f1, f2, f3])).1.loggedFoods = s.loggedFoods
    ∧ (handleAddFood (fun i => decide (i = 1)) genId now s
        (some [f1, f2, f3])).2
        = [mkEntry genId now 0 f1, mkEntry genId now 1 f2]
    ∧ mkEntry genId now 0 f1 ∈ (handleAddFood (fun i => decide (i = 1)) genId
        now s (some [f1, f2, f3])).1.store := by
  refine ⟨rfl, rfl, rfl, rfl, ?_⟩
  show mkEntry genId now 0 f1 ∈ s.store ++ [mkEntry genId now 0 f1]
  simp

/-- Claim C2: the day filter applied to the logged-food list keeps exactly
the entries whose timestamp is not a number (visible on every day) or whose
numeric timestamp falls on the same calendar day as the selected date; an
entry timestamped 2024-06-01T23:59 is kept when the selected date is
2024-06-01 and dropped when it is 2024-06-02 (same zone, offset 0). -/
theorem c2_day_filter (off sel : Int) (fs : List LogEntry) (e : LogEntry) :
    (e ∈ dayFilter off sel fs ↔
      e ∈ fs ∧ (e.timestamp = none ∨
        ∃ ts, e.timestamp = some ts ∧ isSameDay off ts sel = true))
    ∧ dayFilter 0 june1Midnight [lateEntry] = [lateEntry]
    ∧ dayFilter 0 june2Midnight [lateEntry] = [] := by
  refine ⟨?_, by decide, by decide⟩
  rw [dayFilter, List.mem_filter]
  cases h : e.timestamp with
  | none => simp [h]
  | some ts => simp [h]

/-- Claim C3: every storage failure raised inside `handleAddFood` or
`handleRemoveFood` is caught at the handler boundary and reported through
the user-visible error banner (which the dismiss button clears); the
handlers return normally rather than rethrowing, and no write is retried:
at most one `addLogEntry` call per food, exactly one `deleteLogEntry`
call per removal. -/
theorem c3_failures_reported (fails : Nat → Bool) (genId : Nat → String)
    (now : Nat → Int) (s : AppState) (fs : List FoodItem) (id : String)
    (fb : Bool) :
    ((runBatch fails genId now 0 fs).2.2 = true →
      (handleAddFood fails genId now s (some fs)).1.error = some addFoodErrorMsg
      ∧ errorNoticeVisible (handleAddFood fails genId now s (some fs)).1 = true)
    ∧ errorNoticeVisible
        (dismissError (handleAddFood fails genId now s (some fs)).1) = false
    ∧ (handleAddFood fails genId now s (some fs)).2.length ≤ fs.length
    ∧ (handleRemoveFood true s id).1.error = some removeFoodErrorMsg
    ∧ errorNoticeVisible (dismissError (handleRemoveFood fb s id).1) = false
    ∧ (handleRemoveFood fb s id).2 = 1 := by
    refine ⟨?_, rfl, handleAddFood_attempts_le fails genId now s fs, rfl, ?_, ?_⟩
    · intro h
      rw [handleAddFood_failed fails genId now s fs h]
      exact ⟨rfl, rfl⟩
    · cases fb <;> rfl
    · cases fb <;> rfl

/-- Claim C4: `handleClearData` erases all persisted state for all users only
when the confirmation dialog was accepted; declining leaves the persisted
state untouched; after a confirmed clear, `getUserProfile` returns the
not-found sentinel for every user. -/
theorem c4_clear_data (s : Storage) (u : String) :
    handleClearData false s = s
    ∧ handleClearData true s = { profiles := [], entries := [] }
    ∧ getUserProfile (handleClearData true s) u = none :=
  ⟨rfl, rfl, rfl⟩

/-- Claim C5: `updateUserProfile` is a field-level merge, never a full-record
overwrite: any field the patch does not mention keeps its previous value,
and two updates with different single fields leave both fields present with
their respective values. -/
theorem c5_profile_merge (ps : ProfileStore) (u : String) (q : Attrs)
    (k k1 k2 : String) (v1 v2 : AttrVal) :
    (lookupA q k = none →
      lookupA (profileAttrs (updateUserProfile ps u q) u) k
        = lookupA (profileAttrs ps u) k)
    ∧ (k1 ≠ k2 →
      lookupA (profileAttrs (updateUserProfile
          (updateUserProfile ps u [(k1, v1)]) u [(k2, v2)]) u) k1 = some v1
      ∧ lookupA (profileAttrs (updateUserProfile
          (updateUserProfile ps u [(k1, v1)]) u [(k2, v2)]) u) k2 = some v2) := by
  constructor
  · intro h
    rw [profileAttrs_update, lookupA_mergeAttrs _ _ _ h]
  · intro h
    rw [profileAttrs_update, profileAttrs_update]
    show lookupA (setA (setA (profileAttrs ps u) k1 v1) k2 v2) k1 = some v1
      ∧ lookupA (setA (setA (profileAttrs ps u) k1 v1) k2 v2) k2 = some v2
    rw [lookupA_setA_ne _ k2 k1 v2 (Ne.symm h), lookupA_setA_eq, lookupA_setA_eq]
    exact ⟨rfl, rfl⟩

/-- Witness for C5 at a concrete store, user and disjoint field sets. -/
theorem c5_witness :
    lookupA (profileAttrs (updateUserProfile ([] : ProfileStore) "local-user"
        [("theme", AttrVal.strVal "dark")]) "local-user") "macroGoals"
      = lookupA (profileAttrs ([] : ProfileStore) "local-user") "macroGoals"
    ∧ (lookupA (profileAttrs (updateUserProfile (updateUserProfile
          ([] : ProfileStore) "local-user"
          [("macroGoals", AttrVal.goalsVal initialGoals)]) "local-user"
          [("theme", AttrVal.strVal "dark")]) "local-user") "macroGoals"
        = some (AttrVal.goalsVal initialGoals)
      ∧ lookupA (profileAttrs (updateUserProfile (updateUserProfile
          ([] : ProfileStore) "local-user"
          [("macroGoals", AttrVal.goalsVal initialGoals)]) "local-user"
          [("theme", AttrVal.strVal "dark")]) "local-user") "theme"
        = some (AttrVal.strVal "dark")) :=
  ⟨(c5_profile_merge [] "local-user" [("theme", AttrVal.strVal "dark")]
      "macroGoals" "x" "y" (AttrVal.numVal 0) (AttrVal.numVal 0)).1 (by decide),
   (c5_profile_merge [] "local-user" [] "x" "macroGoals" "theme"
      (AttrVal.goalsVal initialGoals) (AttrVal.strVal "dark")).2 (by decide)⟩

/-- Claim C6, as stated, is false on the code: a caller-supplied empty-string
portion is falsy in JavaScript, so `food.portion || '1 serving'` replaces it
with the default — the persisted entry's portion is `"1 serving"`, not the
supplied `""`. -/
theorem c6_counterexample :
    ((handleAddFood (fun _ => false) gid0 now0 s0 (some [teaFI])).1.store.map
      (fun e => e.portion)) = ["1 serving"]
    ∧ teaFI.portion = some ""
    ∧ ("1 serving" : String) ≠ "" := by
  refine ⟨by decide, by decide, by decide⟩

/-- Claim C6 (amended): every `LogEntry` created by `handleAddFood` (with all
writes succeeding, the store gains exactly the index-wise built entries) has
portion equal to the caller's supplied portion when a non-empty one is
supplied, and `"1 serving"` when the portion is missing or the empty string;
the remaining fields equal the caller's `FoodItem` fields and the timestamp
is the creation-time clock reading. -/
theorem c6_entry_fields (genId : Nat → String) (now : Nat → Int)
    (s : AppState) (fs : List FoodItem) (i : Nat) (f : FoodItem) (p : String) :
    (handleAddFood (fun _ => false) genId now s (some fs)).1.store
      = s.store ++ mkEntries genId now 0 fs
    ∧ (p ≠ "" → (mkEntry genId now i { f with portion := some p }).portion = p)
    ∧ (mkEntry genId now i { f with portion := none }).portion = "1 serving"
    ∧ (mkEntry genId now i { f with portion := some "" }).portion = "1 serving"
    ∧ (mkEntry genId now i f).name = f.name
    ∧ (mkEntry genId now i f).calories = f.calories
    ∧ (mkEntry genId now i f).protein = f.protein
    ∧ (mkEntry genId now i f).carbs = f.carbs
    ∧ (mkEntry genId now i f).fat = f.fat
    ∧ (mkEntry genId now i f).timestamp = some (now i) := by
  refine ⟨?_, ?_, rfl, ?_, rfl, rfl, rfl, rfl, rfl, rfl⟩
  · rw [handleAddFood_noFail]
    cases fs with
    | nil => simp [mkEntries]
    | cons a tl => rw [if_neg (by simp)]
  · intro h
    show fallbackPortion (some p) = p
    simp [fallbackPortion, h]
  · show fallbackPortion (some "") = "1 serving"
    rfl

/-- Witness for C6 at a concrete food with a non-empty supplied portion. -/
theorem c6_witness :
    (mkEntry gid0 now0 0 { appleFI with portion := some "2 cups" }).portion
      = "2 cups" :=
  (c6_entry_fields gid0 now0 s0 [] 0 appleFI "2 cups").2.1 (by decide)

/-- Claim C7: immediately upon subscribing, the callback receives the current
persisted snapshot — even on a fresh bus with zero prior mutations, and even
when that snapshot is the empty list — and the returned unsubscribe handle
is idempotent. -/
theorem c7_subscribe (store : String → List LogEntry) (b : Bus) (u : String)
    (t : Nat) :
    (subscribeToLogEntries store b u).1.emissions
      = b.emissions ++ [((subscribeToLogEntries store b u).2, store u)]
    ∧ unsubscribe (unsubscribe b t) t = unsubscribe b t
    ∧ (subscribeToLogEntries store
        { nextToken := 0, subs := [], emissions := [] } u).1.emissions
        = [(0, store u)]
    ∧ (subscribeToLogEntries (fun _ => [])
        { nextToken := 0, subs := [], emissions := [] } u).1.emissions
        = [(0, [])] := by
  refine ⟨rfl, ?_, rfl, rfl⟩
  show ({ b with subs := (b.subs.filter _).filter _ } : Bus) = _
  rw [filter_self_idem]
  rfl

/-- Claim C8: the initial `MacroGoals` React state of the application equals
the spec's defaults `{2000, 150, 250, 65}`. -/
theorem c8_default_goals : initialGoals = specDefaultGoals := rfl

/-- Claim C9: calling `handleAddFood` with a missing or empty food list is a
complete no-op: the state (store, optimistic list and error banner) is
returned unchanged and the `addLogEntry` attempt trace is empty. -/
theorem c9_empty_noop (fails : Nat → Bool) (genId : Nat → String)
    (now : Nat → Int) (s : AppState) :
    handleAddFood fails genId now s none = (s, [])
    ∧ handleAddFood fails genId now s (some []) = (s, []) :=
  ⟨rfl, rfl⟩

/-- Claim C10: `handleGoalChange` sets exactly the named goal key to the new
value and leaves every other macro field unchanged. -/
theorem c10_goal_change (g : MacroGoals) (k : GoalKey) (v : Int) :
    getGoal (handleGoalChange g k v) k = v
    ∧ ∀ k', k' ≠ k → getGoal (handleGoalChange g k v) k' = getGoal g k' := by
  constructor
  · cases k <;> rfl
  · intro k' h
    cases k <;> cases k' <;> simp_all [getGoal, handleGoalChange]

/-- Witness for C10 at a concrete goals record, key and unrelated key. -/
theorem c10_witness :
    getGoal (handleGoalChange initialGoals GoalKey.calories 1800)
        GoalKey.calories = 1800
    ∧ getGoal (handleGoalChange initialGoals GoalKey.calories 1800)
        GoalKey.protein = getGoal initialGoals GoalKey.protein :=
  ⟨(c10_goal_change initialGoals GoalKey.calories 1800).1,
   (c10_goal_change initialGoals GoalKey.calories 1800).2 GoalKey.protein
     (by decide)⟩

/-- Witness for C3 at a concrete state with a failing storage write. -/
theorem c3_witness :
    (handleAddFood (fun _ => true) gid0 now0 s0 (some [appleFI])).1.error
      = some addFoodErrorMsg
    ∧ errorNoticeVisible
        (handleAddFood (fun _ => true) gid0 now0 s0 (some [appleFI])).1
      = true :=
  (c3_failures_reported (fun _ => true) gid0 now0 s0 [appleFI] "x" false).1
    (by decide)

end CalAI
